import Mathlib

set_option maxHeartbeats 1000000
set_option maxRecDepth 4000

namespace Bot

/-! Shallow embedding of the futures-bot position lifecycle manager
(src/bot/exchange.py, src/bot/risk.py, src/bot/conf_decay.py).
Float arithmetic of the source is idealised as exact arithmetic on `ℚ`
(and `ℝ` where the source computes square roots or fractional powers). -/

/-- Python's built-in round() to the nearest integer with ties to even
(banker's rounding), on exact rationals. -/
def roundHE (q : ℚ) : ℤ :=
  let f := ⌊q⌋
  let r := q - (f : ℚ)
  if r < 1/2 then f
  else if 1/2 < r then f + 1
  else if Even f then f else f + 1

/-- Python round(x, p): round to p decimal places, ties to even. -/
def roundP (p : ℕ) (q : ℚ) : ℚ := (roundHE (q * (10 : ℚ) ^ p) : ℚ) / (10 : ℚ) ^ p

/-- Python round() on a real argument (used where the source value passes
through sqrt or a fractional power): nearest integer, ties to even. -/
noncomputable def roundHE_R (x : ℝ) : ℤ :=
  let f := ⌊x⌋
  let r := x - (f : ℝ)
  if r < 1/2 then f
  else if 1/2 < r then f + 1
  else if Even f then f else f + 1

/-- Python round(x, p) on a real argument. -/
noncomputable def roundP_R (p : ℕ) (x : ℝ) : ℝ :=
  ((roundHE_R (x * (10 : ℝ) ^ p) : ℤ) : ℝ) / (10 : ℝ) ^ p

theorem roundHE_R_ratCast (q : ℚ) : roundHE_R ((q : ℝ)) = roundHE q := by
  unfold roundHE_R roundHE
  dsimp only
  rw [Rat.floor_cast]
  have hsub : (q : ℝ) - ((⌊q⌋ : ℤ) : ℝ) = ((q - (⌊q⌋ : ℚ) : ℚ) : ℝ) := by push_cast; ring
  have hhalf : (1 / 2 : ℝ) = ((1 / 2 : ℚ) : ℝ) := by norm_num
  rw [hsub, hhalf]
  by_cases h1 : (q - (⌊q⌋ : ℚ) : ℚ) < 1 / 2
  · rw [if_pos (by exact_mod_cast h1), if_pos h1]
  · rw [if_neg (by exact_mod_cast h1), if_neg h1]
    by_cases h2 : (1 / 2 : ℚ) < q - (⌊q⌋ : ℚ)
    · rw [if_pos (by exact_mod_cast h2), if_pos h2]
    · rw [if_neg (by exact_mod_cast h2), if_neg h2]

theorem roundP_R_ratCast (p : ℕ) (q : ℚ) : roundP_R p ((q : ℝ)) = ((roundP p q : ℚ) : ℝ) := by
  unfold roundP_R roundP
  have h : ((q : ℝ) * (10 : ℝ) ^ p) = (((q * (10 : ℚ) ^ p : ℚ)) : ℝ) := by push_cast; ring
  rw [h, roundHE_R_ratCast]
  push_cast
  ring

/-- src/bot/exchange.py: the case-insensitive long-side synonym table. -/
def validLongFlags : List String := ["LONG", "BUY", "BULL", "BULLISH"]

/-- src/bot/exchange.py: the case-insensitive short-side synonym table. -/
def validShortFlags : List String := ["SHORT", "SELL", "BEAR", "BEARISH"]

inductive Direction
  | LONG
  | SHORT
  deriving DecidableEq

/-- Python str.upper() on the ASCII flag strings the source handles
(character-wise upper-casing). -/
def pyUpper (s : String) : String := String.mk (s.data.map Char.toUpper)

/-- src/bot/exchange.py _direction: 'LONG', 'SHORT' or None for an unknown flag. -/
def _direction (flag : String) : Option Direction :=
  let f := pyUpper flag
  if f ∈ validLongFlags then some Direction.LONG
  else if f ∈ validShortFlags then some Direction.SHORT
  else none

/-- src/bot/conf_decay.py decayed_conf: conf * 0.5 ** (hours / half_life_h),
rounded to 3 decimal places (the source defaults half_life_h to 6.0). -/
noncomputable def decayed_conf (conf hours half_life_h : ℚ) : ℝ :=
  let decay_factor : ℝ := (1 / 2 : ℝ) ^ (((hours / half_life_h : ℚ)) : ℝ)
  roundP_R 3 ((conf : ℝ) * decay_factor)

theorem decayed_conf_zero (c hl : ℚ) :
    decayed_conf c 0 hl = ((roundP 3 c : ℚ) : ℝ) := by
  unfold decayed_conf
  dsimp only
  have h0 : (((0 / hl : ℚ)) : ℝ) = (0 : ℝ) := by
    rw [zero_div]; norm_num
  rw [h0, Real.rpow_zero, mul_one, roundP_R_ratCast]

/-- src/bot/risk.py MIN_TP (env default "0.3", percent). -/
def MIN_TP : ℚ := 3 / 10

/-- src/bot/risk.py DEFAULT_TP (env default "2.0", percent). -/
def DEFAULT_TP : ℚ := 2

/-- src/bot/exchange.py SL_MIN_PCT = 0.01 (absolute minimum 1 %). -/
def SL_MIN_PCT : ℚ := 1 / 100

/-- Line 198 of src/bot/exchange.py: sl_pct = max(SL_MIN_PCT, 2 * tp_pct),
the stop-loss fraction derived from the take-profit fraction. -/
def sl_pct_of (tp_pct : ℚ) : ℚ := max SL_MIN_PCT (2 * tp_pct)

/-- src/bot/risk.py: base tp % from the volatility-bucket table
(_TOKEN_BUCKETS, loaded from configuration), with DEFAULT_TP as fallback;
the token key is the symbol with "USDT" stripped, upper-cased. -/
def bucketBase (buckets : String → Option ℚ) (symbol : String) : ℚ :=
  (buckets (pyUpper (symbol.replace "USDT" ""))).getD DEFAULT_TP

/-- src/bot/risk.py calc_tp_pct: base % from volatility bucket ×
(0.8 + 0.4·confidence) × sqrt(max(hold_hours, 1)/3), rounded to 2 decimals,
floored at MIN_TP.  The bucket table is a configuration parameter. -/
noncomputable def calc_tp_pct (buckets : String → Option ℚ) (symbol : String)
    (confidence : ℚ) (hold_hours : ℚ) : ℝ :=
  let base := bucketBase buckets symbol
  let conf_mult : ℚ := 8 / 10 + confidence * (4 / 10)
  let time_mult : ℝ := Real.sqrt (((max hold_hours 1 / 3 : ℚ)) : ℝ)
  let tp : ℝ := (base : ℝ) * (conf_mult : ℝ) * time_mult
  max (roundP_R 2 tp) ((MIN_TP : ℚ) : ℝ)

/-- calc_tp_pct at the default hold_hours = 3 used by the lazy wrapper
_calc_tp_pct in src/bot/exchange.py: there sqrt(max(3,1)/3) = sqrt 1 = 1,
so the whole computation is rational. -/
def calc_tp_pct3 (buckets : String → Option ℚ) (symbol : String) (confidence : ℚ) : ℚ :=
  max (roundP 2 (bucketBase buckets symbol * (8 / 10 + confidence * (4 / 10)))) MIN_TP

theorem calc_tp_pct3_cast (buckets : String → Option ℚ) (symbol : String) (confidence : ℚ) :
    ((calc_tp_pct3 buckets symbol confidence : ℚ) : ℝ) =
      calc_tp_pct buckets symbol confidence 3 := by
  unfold calc_tp_pct3 calc_tp_pct
  dsimp only
  have hm : (max (3 : ℚ) 1 / 3 : ℚ) = 1 := by norm_num
  rw [hm]
  have hs : Real.sqrt (((1 : ℚ)) : ℝ) = 1 := by
    norm_num
  rw [hs, mul_one]
  have hprod : ((bucketBase buckets symbol : ℚ) : ℝ) *
      ((8 / 10 + confidence * (4 / 10) : ℚ) : ℝ) =
      (((bucketBase buckets symbol * (8 / 10 + confidence * (4 / 10)) : ℚ)) : ℝ) := by
    push_cast; ring
  rw [hprod, roundP_R_ratCast]
  rw [Rat.cast_max]

/-! ### src/bot/exchange.py: data model -/

inductive Side
  | BUY
  | SELL
  deriving DecidableEq

inductive OrdType
  | MARKET
  | LIMIT
  | STOP_MARKET
  | TAKE_PROFIT_MARKET
  deriving DecidableEq

/-- The lifecycle state machine of src/bot/exchange.py PositionState. -/
inductive PositionState
  | OPENING
  | ACTIVE
  | REDUCING
  | CLOSING
  | CLOSED
  deriving DecidableEq

/-- An order submitted to the broker (the keyword arguments of
futures_create_order used by the source; positionSide is determined by
side/direction and omitted). -/
structure OrderSpec where
  symbol : String
  side : Side
  type : OrdType
  quantity : Option ℚ
  price : Option ℚ
  stopPrice : Option ℚ
  closePosition : Bool
  reduceOnly : Bool
  clientId : String
  deriving DecidableEq

/-- One broker call issued by the lifecycle manager. -/
inductive Action
  | setLeverage (symbol : String) (leverage : ℚ)
  | getWalletBalance
  | getMarkPrice (symbol : String)
  | getExchangeInfo (symbol : String)
  | createOrder (spec : OrderSpec)
  | cancelAllOpenOrders (symbol : String)
  deriving DecidableEq

/-- log_event entries emitted by the source (payload reduced to the fields
the properties talk about). -/
inductive Event
  | STATE_BLOCK (symbol : String)
  | SL_OK (symbol : String)
  | TP_OK (symbol : String)
  | ERROR_TP_SL (symbol : String) (order : String)
  | TP1_HIT (symbol : String)
  | ERROR_CANCEL (symbol : String)
  | BREAKEVEN_SL_SET (symbol : String) (price : ℚ)
  | ERROR_SL (symbol : String)
  | ERROR_CLOSE (symbol : String)
  | POSITION_CLOSED (symbol : String) (reason : String) (age_h : ℚ) (pnl_pct : ℚ)
  deriving DecidableEq

/-- The in-memory per-symbol ledger: _STATE, _ENTRY_PRICE, _ORIG_QTY. -/
structure Ledger where
  state : String → Option PositionState
  entryPrice : String → Option ℚ
  origQty : String → Option ℚ

def Ledger.setState (L : Ledger) (symbol : String) (s : PositionState) : Ledger :=
  { L with state := fun t => if t = symbol then some s else L.state t }

def Ledger.setEntry (L : Ledger) (symbol : String) (v : ℚ) : Ledger :=
  { L with entryPrice := fun t => if t = symbol then some v else L.entryPrice t }

def Ledger.setOrig (L : Ledger) (symbol : String) (v : ℚ) : Ledger :=
  { L with origQty := fun t => if t = symbol then some v else L.origQty t }

@[simp] theorem Ledger.setEntry_state (L : Ledger) (s : String) (v : ℚ) :
    (L.setEntry s v).state = L.state := rfl

@[simp] theorem Ledger.setOrig_state (L : Ledger) (s : String) (v : ℚ) :
    (L.setOrig s v).state = L.state := rfl

@[simp] theorem Ledger.setState_entry (L : Ledger) (s : String) (v : PositionState) :
    (L.setState s v).entryPrice = L.entryPrice := rfl

@[simp] theorem Ledger.setState_orig (L : Ledger) (s : String) (v : PositionState) :
    (L.setState s v).origQty = L.origQty := rfl

@[simp] theorem Ledger.setState_state_same (L : Ledger) (s : String) (v : PositionState) :
    (L.setState s v).state s = some v := by
  unfold Ledger.setState
  simp

/-- src/bot/signal.py Signal. -/
structure Signal where
  symbol : String
  price : ℚ
  volume : ℚ
  timestamp : ℕ
  confidence : ℚ
  side : String

inductive OrderStyle
  | market
  | limit
  deriving DecidableEq

/-- A tier dict as produced by src/bot/risk.py _select_tier. -/
structure Tier where
  leverage : ℚ
  pos_pct : ℚ
  tp_pct : ℚ
  sl_pct : ℚ
  order_type : OrderStyle
  offset_pct : ℚ
  ttl_min : ℚ

/-- Environment / venue configuration consumed by exchange.py:
ladderTP is the PARTIAL_TP env flag, tp1Frac is TP1_FRAC (default 0.5);
the symbol's LOT_SIZE step is 10^-lotPrec and its PRICE_FILTER tick is
10^-tickPrec (Binance steps are powers of ten, which is what _round_qty's
precision = round(-log10(step)) assumes); buckets is the volatility-bucket
table of risk.py. -/
structure ExchCfg where
  ladderTP : Bool
  tp1Frac : ℚ
  lotPrec : ℕ
  tickPrec : ℕ
  buckets : String → Option ℚ

/-- src/bot/exchange.py _round_qty with LOT_SIZE step 10^-p:
round(qty, p) — Python round to p decimals, ties to even. -/
def round_qty (p : ℕ) (qty : ℚ) : ℚ := roundP p qty

/-- src/bot/exchange.py _round_price with tick 10^-p:
round(round(price/tick)*tick, p); for tick = 10^-p this equals
round(price, p). -/
def round_price (p : ℕ) (price : ℚ) : ℚ := roundP p price

/-- Outcomes of the broker calls a single place_order invocation makes:
wallet balance and mark price returned by the queries; avgPrice reported
on the entry fill (none: field absent/falsy, source falls back to the mark
price); entryOK/slOK/tpOK tell whether each futures_create_order succeeds. -/
structure PlaceOracle where
  walletBalance : ℚ
  markPrice : ℚ
  avgPrice : Option ℚ
  entryOK : Bool
  slOK : Bool
  tpOK : Bool

inductive PlaceErr
  | unknownSide (flag : String)
  | entryFailed
  | slFailed
  | tpFailed
  deriving DecidableEq

/-- The dict returned by place_order on full success. -/
structure PlaceResult where
  entry_price : ℚ
  sl_price : ℚ
  tp_price : ℚ
  deriving DecidableEq

/-- Result of one place_order call: the returned value or raised error,
the ledger afterwards, the broker calls issued and the events logged.
`Except.ok none` is the empty dict returned on the STATE_BLOCK path. -/
structure PlaceOutput where
  result : Except PlaceErr (Option PlaceResult)
  ledger : Ledger
  actions : List Action
  events : List Event

/-- The broker calls place_order makes before the duplicate-state guard
(lines 134-144): leverage change, balance query, mark-price query and the
exchange-info query of _round_qty. -/
def sizingActs (sig : Signal) (tier : Tier) : List Action :=
  [Action.setLeverage sig.symbol tier.leverage, Action.getWalletBalance,
   Action.getMarkPrice sig.symbol, Action.getExchangeInfo sig.symbol]

/-- The entry quantity place_order computes (lines 140-144):
notional = balance·pos_pct·leverage, divided by the mark price and passed
through _round_qty. -/
def sizedQty (cfg : ExchCfg) (orc : PlaceOracle) (tier : Tier) : ℚ :=
  round_qty cfg.lotPrec (orc.walletBalance * tier.pos_pct * tier.leverage / orc.markPrice)

/-- Lines 168-267 of src/bot/exchange.py place_order: entry order,
protective price computation, SL then TP submission with errors collected,
the first error re-raised, ACTIVE transition on full success.  L2 is the
ledger with the symbol already set to OPENING. -/
def entry_and_protect (cfg : ExchCfg) (orc : PlaceOracle) (sig : Signal) (tier : Tier)
    (dir : Direction) (L2 : Ledger) (client_id : String) : PlaceOutput :=
  let mark_price := orc.markPrice
  let qty := sizedQty cfg orc tier
  let is_long := dir = Direction.LONG
  let side := if is_long then Side.BUY else Side.SELL
  let opp_side := if is_long then Side.SELL else Side.BUY
  let limit_price := round_price cfg.tickPrec (mark_price * (1 + tier.offset_pct))
  let entrySpec : OrderSpec :=
    match tier.order_type with
    | OrderStyle.market =>
      { symbol := sig.symbol, side := side, type := OrdType.MARKET,
        quantity := some qty, price := none, stopPrice := none,
        closePosition := false, reduceOnly := false, clientId := client_id }
    | OrderStyle.limit =>
      { symbol := sig.symbol, side := side, type := OrdType.LIMIT,
        quantity := some qty, price := some limit_price, stopPrice := none,
        closePosition := false, reduceOnly := false, clientId := client_id }
  let entryActs :=
    match tier.order_type with
    | OrderStyle.market => [Action.createOrder entrySpec]
    | OrderStyle.limit => [Action.getExchangeInfo sig.symbol, Action.createOrder entrySpec]
  if orc.entryOK = false then
    { result := Except.error PlaceErr.entryFailed, ledger := L2,
      actions := sizingActs sig tier ++ entryActs, events := [] }
  else
    let entry_price : ℚ :=
      match tier.order_type with
      | OrderStyle.market => orc.avgPrice.getD mark_price
      | OrderStyle.limit => limit_price
    let tp_pct := calc_tp_pct3 cfg.buckets sig.symbol sig.confidence / 100
    let sl_pct := sl_pct_of tp_pct
    let sl_raw := if is_long then entry_price * (1 - sl_pct) else entry_price * (1 + sl_pct)
    let tp_raw := if is_long then entry_price * (1 + tp_pct) else entry_price * (1 - tp_pct)
    let sl_price := round_price cfg.tickPrec sl_raw
    let tp_price := round_price cfg.tickPrec tp_raw
    let slSpec : OrderSpec :=
      { symbol := sig.symbol, side := opp_side, type := OrdType.STOP_MARKET,
        quantity := none, price := none, stopPrice := some sl_price,
        closePosition := true, reduceOnly := false, clientId := client_id ++ "-SL" }
    let slEvs := if orc.slOK then [Event.SL_OK sig.symbol]
      else [Event.ERROR_TP_SL sig.symbol "SL"]
    let tpSpec : OrderSpec :=
      if cfg.ladderTP then
        { symbol := sig.symbol, side := opp_side, type := OrdType.TAKE_PROFIT_MARKET,
          quantity := some (round_qty cfg.lotPrec (qty * cfg.tp1Frac)), price := none,
          stopPrice := some tp_price, closePosition := false, reduceOnly := true,
          clientId := client_id ++ "-TP1" }
      else
        { symbol := sig.symbol, side := opp_side, type := OrdType.TAKE_PROFIT_MARKET,
          quantity := none, price := none, stopPrice := some tp_price,
          closePosition := true, reduceOnly := false, clientId := client_id ++ "-TP" }
    let tpActs := (if cfg.ladderTP then [Action.getExchangeInfo sig.symbol] else [])
      ++ [Action.createOrder tpSpec]
    let tpEvs := if orc.tpOK then [Event.TP_OK sig.symbol]
      else [Event.ERROR_TP_SL sig.symbol "TP"]
    let acts := sizingActs sig tier ++ entryActs ++
      [Action.getExchangeInfo sig.symbol, Action.getExchangeInfo sig.symbol,
       Action.createOrder slSpec] ++ tpActs
    let evs := slEvs ++ tpEvs
    if orc.slOK = false then
      { result := Except.error PlaceErr.slFailed, ledger := L2, actions := acts, events := evs }
    else if orc.tpOK = false then
      { result := Except.error PlaceErr.tpFailed, ledger := L2, actions := acts, events := evs }
    else
      { result := Except.ok (some
          { entry_price := entry_price, sl_price := sl_price, tp_price := tp_price }),
        ledger := L2.setState sig.symbol PositionState.ACTIVE,
        actions := acts, events := evs }

/-- src/bot/exchange.py place_order (lines 132-267), step for step:
leverage change, balance query, sizing (mark-price and exchange-info
queries), ledger entry/orig overwrite, direction check, duplicate-state
guard, then the entry/protective tail of entry_and_protect. -/
def place_order (cfg : ExchCfg) (orc : PlaceOracle) (sig : Signal) (tier : Tier)
    (L : Ledger) (client_id : String) : PlaceOutput :=
  let mark_price := orc.markPrice
  let qty := sizedQty cfg orc tier
  let L1 := (L.setEntry sig.symbol mark_price).setOrig sig.symbol qty
  match _direction sig.side with
  | none =>
    { result := Except.error (PlaceErr.unknownSide sig.side), ledger := L1,
      actions := sizingActs sig tier, events := [] }
  | some dir =>
    if L1.state sig.symbol = some PositionState.OPENING ∨
        L1.state sig.symbol = some PositionState.CLOSING then
      { result := Except.ok none, ledger := L1, actions := sizingActs sig tier,
        events := [Event.STATE_BLOCK sig.symbol] }
    else
      entry_and_protect cfg orc sig tier dir (L1.setState sig.symbol PositionState.OPENING)
        client_id

/-! ### src/bot/exchange.py: manage_open_positions (the supervisor sweep) -/

/-- Outcome CSV row written by log_outcome. -/
structure Outcome where
  symbol : String
  entry_price : ℚ
  exit_price : ℚ
  pnl_percent : ℚ
  hold_h : ℚ
  reason : String
  deriving DecidableEq

/-- One open position as returned by futures_position_information:
positionAmt, the age in hours the sweep derives from updateTime, and the
broker-reported entryPrice. -/
structure BrokerPos where
  symbol : String
  positionAmt : ℚ
  ageHours : ℚ
  entryPrice : ℚ

/-- Outcomes of the broker calls one loop iteration of the sweep makes:
cancelTP1OK — the cancel_all before the break-even stop; beOK — the
break-even stop order; cancelOK / closeOK — the cancel_all and closing
market order of the close block; exitMark — mark price fetched after
closing (none: the call failed, the source falls back to 0.0). -/
structure SweepOracle where
  cancelTP1OK : Bool
  beOK : Bool
  cancelOK : Bool
  closeOK : Bool
  exitMark : Option ℚ

/-- The evolving state of one manage_open_positions invocation: the ledger,
the function-local Python variable opp_side (none = not yet assigned in
this invocation: referencing it raises UnboundLocalError), and the broker
calls / events / outcome rows accumulated so far. -/
structure SweepState where
  ledger : Ledger
  oppSide : Option Side
  actions : List Action
  events : List Event
  outcomes : List Outcome

/-- Lines 367-396 of src/bot/exchange.py: the partial-TP (TP1) detection
and break-even promotion block.  Note the source submits the break-even
stop with side=opp_side, a local that is only assigned later, in the close
block (line 418); on this path it is whatever the last close in the same
invocation left there — or unassigned, in which case the reference raises
UnboundLocalError, caught by the surrounding try/except which logs
ERROR_SL. -/
def tp1_block (cfg : ExchCfg) (orc : SweepOracle) (p : BrokerPos) (st : SweepState) :
    SweepState :=
  if cfg.ladderTP ∧ st.ledger.state p.symbol = some PositionState.ACTIVE then
    match st.ledger.origQty p.symbol with
    | none => st
    | some oq =>
      if oq ≠ 0 ∧ |p.positionAmt| ≤ oq * (1 - cfg.tp1Frac + 1/20) then
        let st1 : SweepState :=
          { st with events := st.events ++ [Event.TP1_HIT p.symbol],
                    actions := st.actions ++ [Action.cancelAllOpenOrders p.symbol] }
        let st2 : SweepState := if orc.cancelTP1OK then st1
          else { st1 with events := st1.events ++ [Event.ERROR_CANCEL p.symbol] }
        let ep := (st.ledger.entryPrice p.symbol).getD 0
        if 0 < ep then
          let breakeven := round_price cfg.tickPrec ep
          let st3 : SweepState :=
            { st2 with actions := st2.actions ++ [Action.getExchangeInfo p.symbol] }
          match st.oppSide with
          | none =>
            { st3 with events := st3.events ++ [Event.ERROR_SL p.symbol] }
          | some os =>
            let beSpec : OrderSpec :=
              { symbol := p.symbol, side := os, type := OrdType.STOP_MARKET,
                quantity := none, price := none, stopPrice := some breakeven,
                closePosition := true, reduceOnly := false, clientId := "BE-SL" }
            let st4 : SweepState :=
              { st3 with actions := st3.actions ++ [Action.createOrder beSpec] }
            if orc.beOK then
              { st4 with events := st4.events ++ [Event.BREAKEVEN_SL_SET p.symbol breakeven],
                         ledger := st4.ledger.setState p.symbol PositionState.REDUCING }
            else
              { st4 with events := st4.events ++ [Event.ERROR_SL p.symbol] }
        else st2
      else st
  else st

/-- Lines 347-401 of src/bot/exchange.py: the per-position closure-rule
evaluation, in source order — time-stop, then (only when a signal exists
for the symbol) signal flip, TP1/break-even side effects, confidence
decay.  Returns the updated sweep state and the close reason, if any. -/
noncomputable def sweep_decide (cfg : ExchCfg) (ttl_hours flip_threshold min_conf : ℚ)
    (sigMap : String → Option (Direction × ℚ)) (orc : SweepOracle) (p : BrokerPos)
    (st : SweepState) : SweepState × Option String :=
  let side := if 0 < p.positionAmt then Direction.LONG else Direction.SHORT
  if ttl_hours ≤ p.ageHours then (st, some "TIME_STOP")
  else
    match sigMap p.symbol with
    | none => (st, none)
    | some sc =>
      if sc.1 ≠ side ∧ flip_threshold ≤ sc.2 then (st, some "SIGNAL_FLIP")
      else
        let st1 := tp1_block cfg orc p st
        if decayed_conf sc.2 p.ageHours 6 < ((min_conf : ℚ) : ℝ) then
          (st1, some "CONF_DECAY")
        else (st1, none)

/-- Lines 409-461 of src/bot/exchange.py: the closure procedure once a
rule fired and the CLOSING guard passed.  Every broker failure is caught:
the POSITION_CLOSED event, the outcome row and the CLOSED transition
happen unconditionally.  (close_connection, a no-op towards the venue's
books, is not modelled as an action.) -/
def close_block (orc : SweepOracle) (p : BrokerPos) (reason : String)
    (st : SweepState) : SweepState :=
  let st1 : SweepState :=
    { st with ledger := st.ledger.setState p.symbol PositionState.CLOSING,
              actions := st.actions ++ [Action.cancelAllOpenOrders p.symbol] }
  let st2 : SweepState := if orc.cancelOK then st1
    else { st1 with events := st1.events ++ [Event.ERROR_CANCEL p.symbol] }
  let opp : Side := if 0 < p.positionAmt then Side.SELL else Side.BUY
  let closeSpec : OrderSpec :=
    { symbol := p.symbol, side := opp, type := OrdType.MARKET, quantity := none,
      price := none, stopPrice := none, closePosition := true, reduceOnly := false,
      clientId := "" }
  let st3 : SweepState :=
    { st2 with oppSide := some opp, actions := st2.actions ++ [Action.createOrder closeSpec] }
  let st4 : SweepState := if orc.closeOK then st3
    else { st3 with events := st3.events ++ [Event.ERROR_CLOSE p.symbol] }
  let st5 : SweepState := { st4 with actions := st4.actions ++ [Action.getMarkPrice p.symbol] }
  let exit_price : ℚ := orc.exitMark.getD 0
  let entry_price := p.entryPrice
  let pnl_pct : ℚ :=
    if 0 < entry_price ∧ 0 < exit_price then
      (exit_price - entry_price) / entry_price * 100 * (if 0 < p.positionAmt then 1 else -1)
    else 0
  let st6 : SweepState :=
    { st5 with
        events := st5.events ++
          [Event.POSITION_CLOSED p.symbol reason (roundP 2 p.ageHours) (roundP 2 pnl_pct)],
        outcomes := st5.outcomes ++
          [{ symbol := p.symbol, entry_price := entry_price, exit_price := exit_price,
             pnl_percent := roundP 2 pnl_pct, hold_h := roundP 2 p.ageHours,
             reason := reason }] }
  { st6 with ledger := st6.ledger.setState p.symbol PositionState.CLOSED }

/-- One iteration of the position loop of manage_open_positions
(lines 342-461): skip flat positions, evaluate the closure rules (with the
TP1 side effects), then — unless the ledger already says CLOSING — run the
closure procedure. -/
noncomputable def manageStep (cfg : ExchCfg) (ttl_hours flip_threshold min_conf : ℚ)
    (sigMap : String → Option (Direction × ℚ)) (orc : SweepOracle) (p : BrokerPos)
    (st : SweepState) : SweepState :=
  if p.positionAmt = 0 then st
  else
    let dr := sweep_decide cfg ttl_hours flip_threshold min_conf sigMap orc p st
    match dr.2 with
    | none => dr.1
    | some reason =>
      if dr.1.ledger.state p.symbol = some PositionState.CLOSING then dr.1
      else close_block orc p reason dr.1

/-- src/bot/exchange.py manage_open_positions (source defaults: ttl_hours 6,
flip_threshold 0.6, min_conf 0.4): fold the per-position iteration over the
broker's open-position list, starting with the Python local opp_side
unassigned.  sigMap is the sig_map the source builds from fetch_signals
(symbol → direction and confidence of the latest recognised signal). -/
noncomputable def manage_open_positions (cfg : ExchCfg)
    (ttl_hours flip_threshold min_conf : ℚ)
    (sigMap : String → Option (Direction × ℚ))
    (positions : List (BrokerPos × SweepOracle)) (L : Ledger) : SweepState :=
  positions.foldl
    (fun st po => manageStep cfg ttl_hours flip_threshold min_conf sigMap po.2 po.1 st)
    { ledger := L, oppSide := none, actions := [], events := [], outcomes := [] }

/-- The entry orders (MARKET or LIMIT createOrder calls) in a broker-call
trace. -/
def entry_orders (acts : List Action) : List OrderSpec :=
  acts.filterMap (fun a =>
    match a with
    | Action.createOrder s =>
      if s.type = OrdType.MARKET ∨ s.type = OrdType.LIMIT then some s else none
    | _ => none)

/-- Modelled from the spec: "quantity = notional / referencePrice, rounded
down to the venue's lot-size step" — the floor to the step 10^-p, for
comparison with the source's _round_qty. -/
def round_qty_down (p : ℕ) (qty : ℚ) : ℚ := ((⌊qty * (10 : ℚ) ^ p⌋ : ℤ) : ℚ) / (10 : ℚ) ^ p

/-! ### Path lemmas for place_order -/

theorem place_order_blocked_run (cfg : ExchCfg) (orc : PlaceOracle) (sig : Signal)
    (tier : Tier) (L : Ledger) (cid : String) (d : Direction)
    (h1 : _direction sig.side = some d)
    (h2 : L.state sig.symbol = some PositionState.OPENING ∨
      L.state sig.symbol = some PositionState.CLOSING) :
    place_order cfg orc sig tier L cid =
      { result := Except.ok none,
        ledger := (L.setEntry sig.symbol orc.markPrice).setOrig sig.symbol
          (sizedQty cfg orc tier),
        actions := sizingActs sig tier,
        events := [Event.STATE_BLOCK sig.symbol] } := by
  unfold place_order
  dsimp only
  rw [h1]
  exact if_pos h2

theorem place_order_unblocked_run (cfg : ExchCfg) (orc : PlaceOracle) (sig : Signal)
    (tier : Tier) (L : Ledger) (cid : String) (d : Direction)
    (h1 : _direction sig.side = some d)
    (h2 : ¬(L.state sig.symbol = some PositionState.OPENING ∨
      L.state sig.symbol = some PositionState.CLOSING)) :
    place_order cfg orc sig tier L cid =
      entry_and_protect cfg orc sig tier d
        (((L.setEntry sig.symbol orc.markPrice).setOrig sig.symbol
          (sizedQty cfg orc tier)).setState sig.symbol PositionState.OPENING) cid := by
  unfold place_order
  dsimp only
  rw [h1]
  exact if_neg h2

/-! ### Concrete fixtures used by counterexamples and witnesses -/

/-- Ladder mode off, lot step 0.001, tick 0.01, empty bucket table. -/
def cfgA : ExchCfg :=
  { ladderTP := false, tp1Frac := 1/2, lotPrec := 3, tickPrec := 2, buckets := fun _ => none }

/-- Ladder mode on (PARTIAL_TP=true, TP1_FRAC=0.5). -/
def cfgL : ExchCfg :=
  { ladderTP := true, tp1Frac := 1/2, lotPrec := 3, tickPrec := 2, buckets := fun _ => none }

/-- The empty ledger (fresh process). -/
def L0 : Ledger :=
  { state := fun _ => none, entryPrice := fun _ => none, origQty := fun _ => none }

/-- A ledger in which BTCUSDT is mid-open with a stored entry price of 50. -/
def LOpen : Ledger :=
  { state := fun s => if s = "BTCUSDT" then some PositionState.OPENING else none,
    entryPrice := fun s => if s = "BTCUSDT" then some 50 else none,
    origQty := fun _ => none }

/-- A ledger in which ETHUSDT is mid-close. -/
def LClosing : Ledger :=
  { state := fun s => if s = "ETHUSDT" then some PositionState.CLOSING else none,
    entryPrice := fun _ => none, origQty := fun _ => none }

def sigBTC : Signal :=
  { symbol := "BTCUSDT", price := 100, volume := 1, timestamp := 1,
    confidence := 95/100, side := "LONG" }

def sigETH : Signal :=
  { symbol := "ETHUSDT", price := 100, volume := 1, timestamp := 1,
    confidence := 95/100, side := "LONG" }

/-- The 0.95-confidence market tier of src/bot/risk.py _TIERS. -/
def tierM : Tier :=
  { leverage := 10, pos_pct := 12/100, tp_pct := 3/100, sl_pct := 15/100,
    order_type := OrderStyle.market, offset_pct := 0, ttl_min := 0 }

/-- All broker calls succeed; wallet 1000, mark price 100. -/
def orcOK : PlaceOracle :=
  { walletBalance := 1000, markPrice := 100, avgPrice := none,
    entryOK := true, slOK := true, tpOK := true }

/-- Entry succeeds, the take-profit order fails. -/
def orcTPfail : PlaceOracle :=
  { walletBalance := 1000, markPrice := 100, avgPrice := none,
    entryOK := true, slOK := true, tpOK := false }

/-- Fixture for C6: tier with positionFraction 1 %, leverage 1. -/
def tierC6 : Tier :=
  { leverage := 1, pos_pct := 1/100, tp_pct := 3/100, sl_pct := 15/100,
    order_type := OrderStyle.market, offset_pct := 0, ttl_min := 0 }

/-- Fixture for C6: wallet 17, mark price 100, all orders succeed, so the raw
quantity is 17·0.01·1/100 = 0.0017. -/
def orcC6 : PlaceOracle :=
  { walletBalance := 17, markPrice := 100, avgPrice := none,
    entryOK := true, slOK := true, tpOK := true }

/-! ### Structural lemmas about the entry/protective tail -/

theorem EAP_fail_output (cfg : ExchCfg) (orc : PlaceOracle) (sig : Signal) (tier : Tier)
    (d : Direction) (L2 : Ledger) (cid : String)
    (h3 : orc.entryOK = true) (h4 : orc.slOK = false ∨ orc.tpOK = false) :
    (entry_and_protect cfg orc sig tier d L2 cid).ledger = L2 ∧
    (entry_and_protect cfg orc sig tier d L2 cid).result =
      Except.error (if orc.slOK = false then PlaceErr.slFailed else PlaceErr.tpFailed) := by
  unfold entry_and_protect
  dsimp only
  rw [h3]
  rw [if_neg (by simp : ¬(true = false))]
  cases hsl : orc.slOK
  · simp [hsl]
  · have htp : orc.tpOK = false := by
      rcases h4 with h | h
      · rw [hsl] at h; exact absurd h (by simp)
      · exact h
    simp [hsl, htp]

theorem EAP_no_cancel (cfg : ExchCfg) (orc : PlaceOracle) (sig : Signal) (tier : Tier)
    (d : Direction) (L2 : Ledger) (cid : String) :
    ∀ s, Action.cancelAllOpenOrders s ∉ (entry_and_protect cfg orc sig tier d L2 cid).actions := by
  intro s
  unfold entry_and_protect
  dsimp only
  cases htype : tier.order_type <;> cases hE : orc.entryOK <;> cases hsl : orc.slOK <;>
    cases htp : orc.tpOK <;> cases hlad : cfg.ladderTP <;>
      simp [sizingActs, htype, hE, hsl, htp, hlad]

theorem EAP_entry_orders (cfg : ExchCfg) (orc : PlaceOracle) (sig : Signal) (tier : Tier)
    (d : Direction) (L2 : Ledger) (cid : String) :
    (entry_orders (entry_and_protect cfg orc sig tier d L2 cid).actions).map
      (fun s => s.quantity) = [some (sizedQty cfg orc tier)] := by
  unfold entry_and_protect
  dsimp only
  cases htype : tier.order_type <;> cases hE : orc.entryOK <;> cases hsl : orc.slOK <;>
    cases htp : orc.tpOK <;> cases hlad : cfg.ladderTP <;>
      simp [entry_orders, sizingActs, htype, hE, hsl, htp, hlad]

theorem EAP_no_market_close (cfg : ExchCfg) (orc : PlaceOracle) (sig : Signal) (tier : Tier)
    (d : Direction) (L2 : Ledger) (cid : String) :
    ∀ spec, Action.createOrder spec ∈ (entry_and_protect cfg orc sig tier d L2 cid).actions →
      ¬(spec.type = OrdType.MARKET ∧ spec.closePosition = true) := by
  intro spec hmem
  unfold entry_and_protect at hmem
  dsimp only at hmem
  cases htype : tier.order_type <;> cases hE : orc.entryOK <;> cases hsl : orc.slOK <;>
    cases htp : orc.tpOK <;> cases hlad : cfg.ladderTP <;>
      simp [sizingActs, htype, hE, hsl, htp, hlad] at hmem <;>
      obtain rfl | rfl | rfl := hmem <;>
      simp

theorem entry_orders_mem (acts : List Action) (s : OrderSpec) (h : s ∈ entry_orders acts) :
    Action.createOrder s ∈ acts ∧ (s.type = OrdType.MARKET ∨ s.type = OrdType.LIMIT) := by
  unfold entry_orders at h
  rw [List.mem_filterMap] at h
  obtain ⟨a, ha, hfa⟩ := h
  cases a <;> simp only [] at hfa
  case createOrder spec =>
    by_cases hc : spec.type = OrdType.MARKET ∨ spec.type = OrdType.LIMIT
    · rw [if_pos hc] at hfa
      obtain rfl : spec = s := by injection hfa
      exact ⟨ha, hc⟩
    · rw [if_neg hc] at hfa
      exact absurd hfa (by simp)
  all_goals exact absurd hfa (by simp)

/-! ### Claims -/

/-- C7: for every bucket table, symbol, confidence and hold duration, the
computed take-profit percentage is at least MIN_TP, and the stop-loss
fraction derived from it (line 198 of src/bot/exchange.py from the tp
fraction calc_tp_pct3/100 used there) equals max(SL_MIN_PCT, 2·tp_pct),
hence is at least 2·tp_pct and at least the absolute floor SL_MIN_PCT. -/
theorem C7_tp_min_sl_floor (buckets : String → Option ℚ) (symbol : String)
    (confidence hold_hours : ℚ) :
    ((MIN_TP : ℚ) : ℝ) ≤ calc_tp_pct buckets symbol confidence hold_hours ∧
    sl_pct_of (calc_tp_pct3 buckets symbol confidence / 100) =
      max SL_MIN_PCT (2 * (calc_tp_pct3 buckets symbol confidence / 100)) ∧
    2 * (calc_tp_pct3 buckets symbol confidence / 100) ≤
      sl_pct_of (calc_tp_pct3 buckets symbol confidence / 100) ∧
    SL_MIN_PCT ≤ sl_pct_of (calc_tp_pct3 buckets symbol confidence / 100) := by
  refine ⟨?_, rfl, le_max_right _ _, le_max_left _ _⟩
  unfold calc_tp_pct
  dsimp only
  exact le_max_right _ _

/-- C8 (counterexample): at zero elapsed hours the decayed confidence is the
input rounded to 3 decimal places, so for confidence 0.1234 (half-life 6)
it differs from the input, refuting decayedConfidence(c,0,h) = c. -/
theorem C8_cex : decayed_conf (617/5000) 0 6 ≠ ((617/5000 : ℚ) : ℝ) := by
  rw [decayed_conf_zero]
  intro hc
  have h : (roundP 3 (617/5000 : ℚ)) = 617/5000 := by exact_mod_cast hc
  have h2 : roundP 3 (617/5000 : ℚ) = 123/1000 := by norm_num [roundP, roundHE]
  rw [h2] at h
  norm_num at h

/-- C8 (amended): for every confidence c and half-life h > 0,
decayedConfidence(c, 0, h) equals c rounded to 3 decimal places; in
particular it equals c exactly whenever rounding to 3 decimals leaves c
unchanged. -/
theorem C8_decay_zero (c hl : ℚ) (_h : 0 < hl) :
    decayed_conf c 0 hl = ((roundP 3 c : ℚ) : ℝ) ∧
    (roundP 3 c = c → decayed_conf c 0 hl = (c : ℝ)) := by
  refine ⟨decayed_conf_zero c hl, fun hr => ?_⟩
  rw [decayed_conf_zero, hr]

theorem C8_decay_zero_witness :
    (0 : ℚ) < 6 ∧ decayed_conf (1/2) 0 6 = (((1:ℚ)/2 : ℚ) : ℝ) :=
  ⟨by norm_num, (C8_decay_zero (1/2) 6 (by norm_num)).2 (by norm_num [roundP, roundHE])⟩

/-- C1 (counterexample): calling place_order while BTCUSDT is already
OPENING is not a broker-silent, ledger-preserving no-op — broker calls are
still issued and the symbol's ledger entryPrice is overwritten with the
fresh mark price (100 in place of the stored 50). -/
theorem C1_cex :
    (place_order cfgA orcOK sigBTC tierM LOpen "BOT-1").actions ≠ [] ∧
    (place_order cfgA orcOK sigBTC tierM LOpen "BOT-1").ledger.entryPrice "BTCUSDT" ≠
      LOpen.entryPrice "BTCUSDT" := by
  constructor
  · decide
  · decide

/-- C1 (amended): when the symbol's state is OPENING or CLOSING, place_order
returns the empty blocked result, logs STATE_BLOCK, submits no order and
leaves the state map unchanged — but it still issues the leverage, balance,
mark-price and exchange-info broker calls, and overwrites the symbol's
ledger entryPrice and originalQty with freshly computed values. -/
theorem C1_blocked_no_order (cfg : ExchCfg) (orc : PlaceOracle) (sig : Signal)
    (tier : Tier) (L : Ledger) (cid : String) (d : Direction)
    (h1 : _direction sig.side = some d)
    (h2 : L.state sig.symbol = some PositionState.OPENING ∨
      L.state sig.symbol = some PositionState.CLOSING) :
    (place_order cfg orc sig tier L cid).result = Except.ok none ∧
    (∀ s, (place_order cfg orc sig tier L cid).ledger.state s = L.state s) ∧
    (place_order cfg orc sig tier L cid).actions = sizingActs sig tier ∧
    (∀ spec, Action.createOrder spec ∉ (place_order cfg orc sig tier L cid).actions) ∧
    (place_order cfg orc sig tier L cid).ledger.entryPrice sig.symbol = some orc.markPrice ∧
    (place_order cfg orc sig tier L cid).ledger.origQty sig.symbol =
      some (sizedQty cfg orc tier) ∧
    (place_order cfg orc sig tier L cid).events = [Event.STATE_BLOCK sig.symbol] := by
  rw [place_order_blocked_run cfg orc sig tier L cid d h1 h2]
  refine ⟨rfl, fun s => rfl, rfl, ?_, ?_, ?_, rfl⟩
  · intro spec hmem
    simp [sizingActs] at hmem
  · simp [Ledger.setEntry, Ledger.setOrig]
  · simp [Ledger.setOrig]

theorem C1_blocked_no_order_witness :
    _direction sigBTC.side = some Direction.LONG ∧
    (LOpen.state sigBTC.symbol = some PositionState.OPENING ∨
      LOpen.state sigBTC.symbol = some PositionState.CLOSING) ∧
    (place_order cfgA orcOK sigBTC tierM LOpen "BOT-1").result = Except.ok none ∧
    (place_order cfgA orcOK sigBTC tierM LOpen "BOT-1").events =
      [Event.STATE_BLOCK sigBTC.symbol] :=
  have h1 : _direction sigBTC.side = some Direction.LONG := by decide
  have h2 : LOpen.state sigBTC.symbol = some PositionState.OPENING ∨
      LOpen.state sigBTC.symbol = some PositionState.CLOSING := Or.inl (by decide)
  ⟨h1, h2,
   (C1_blocked_no_order cfgA orcOK sigBTC tierM LOpen "BOT-1" Direction.LONG h1 h2).1,
   (C1_blocked_no_order cfgA orcOK sigBTC tierM LOpen "BOT-1" Direction.LONG h1 h2).2.2.2.2.2.2⟩

/-- C4 (counterexample): two successive place_order calls whose protective
take-profit order failed leave BTCUSDT and ETHUSDT both in OPENING — a
reachable ledger state in which two symbols occupy OPENING at once, so the
global at-most-one-OPENING/CLOSING invariant is false. -/
theorem C4_cex :
    ((place_order cfgA orcTPfail sigETH tierM
        (place_order cfgA orcTPfail sigBTC tierM L0 "BOT-1").ledger "BOT-2").ledger.state
      "BTCUSDT" = some PositionState.OPENING) ∧
    ((place_order cfgA orcTPfail sigETH tierM
        (place_order cfgA orcTPfail sigBTC tierM L0 "BOT-1").ledger "BOT-2").ledger.state
      "ETHUSDT" = some PositionState.OPENING) ∧
    "BTCUSDT" ≠ "ETHUSDT" := by
  refine ⟨by decide, by decide, by decide⟩

/-- C4 (amended): the exclusivity the guard actually enforces is per symbol:
a place_order call for a symbol currently OPENING or CLOSING performs no
state transition for any symbol, returns the empty blocked result and
submits no order — while distinct symbols may occupy OPENING or CLOSING
simultaneously (see the counterexample). -/
theorem C4_per_symbol_guard (cfg : ExchCfg) (orc : PlaceOracle) (sig : Signal)
    (tier : Tier) (L : Ledger) (cid : String) (d : Direction)
    (h1 : _direction sig.side = some d)
    (h2 : L.state sig.symbol = some PositionState.OPENING ∨
      L.state sig.symbol = some PositionState.CLOSING) :
    (∀ s, (place_order cfg orc sig tier L cid).ledger.state s = L.state s) ∧
    (place_order cfg orc sig tier L cid).result = Except.ok none ∧
    (∀ spec, Action.createOrder spec ∉ (place_order cfg orc sig tier L cid).actions) := by
  rw [place_order_blocked_run cfg orc sig tier L cid d h1 h2]
  refine ⟨fun s => rfl, rfl, ?_⟩
  intro spec hmem
  simp [sizingActs] at hmem

theorem C4_per_symbol_guard_witness :
    _direction sigETH.side = some Direction.LONG ∧
    (LClosing.state sigETH.symbol = some PositionState.OPENING ∨
      LClosing.state sigETH.symbol = some PositionState.CLOSING) ∧
    (∀ s, (place_order cfgA orcOK sigETH tierM LClosing "BOT-1").ledger.state s =
      LClosing.state s) ∧
    (place_order cfgA orcOK sigETH tierM LClosing "BOT-1").result = Except.ok none :=
  have h1 : _direction sigETH.side = some Direction.LONG := by decide
  have h2 : LClosing.state sigETH.symbol = some PositionState.OPENING ∨
      LClosing.state sigETH.symbol = some PositionState.CLOSING := Or.inr (by decide)
  ⟨h1, h2,
   (C4_per_symbol_guard cfgA orcOK sigETH tierM LClosing "BOT-1" Direction.LONG h1 h2).1,
   (C4_per_symbol_guard cfgA orcOK sigETH tierM LClosing "BOT-1" Direction.LONG h1 h2).2.1⟩

/-- C3: when the entry order succeeds and at least one protective order
fails, place_order fails with the first such error (the SL error when the
stop-loss failed, else the TP error), and the entry is not rolled back: the
entry order was issued (and keeps its computed quantity), no cancel call is
made, and no counter market order (MARKET with closePosition) is sent. -/
theorem C3_protective_failure (cfg : ExchCfg) (orc : PlaceOracle) (sig : Signal)
    (tier : Tier) (L : Ledger) (cid : String) (d : Direction)
    (h1 : _direction sig.side = some d)
    (h2 : ¬(L.state sig.symbol = some PositionState.OPENING ∨
      L.state sig.symbol = some PositionState.CLOSING))
    (h3 : orc.entryOK = true)
    (h4 : orc.slOK = false ∨ orc.tpOK = false) :
    (place_order cfg orc sig tier L cid).result =
      Except.error (if orc.slOK = false then PlaceErr.slFailed else PlaceErr.tpFailed) ∧
    (∀ s, Action.cancelAllOpenOrders s ∉ (place_order cfg orc sig tier L cid).actions) ∧
    (∃ espec, Action.createOrder espec ∈ (place_order cfg orc sig tier L cid).actions ∧
      (espec.type = OrdType.MARKET ∨ espec.type = OrdType.LIMIT) ∧
      espec.quantity = some (sizedQty cfg orc tier)) ∧
    (∀ spec, Action.createOrder spec ∈ (place_order cfg orc sig tier L cid).actions →
      ¬(spec.type = OrdType.MARKET ∧ spec.closePosition = true)) := by
  rw [place_order_unblocked_run cfg orc sig tier L cid d h1 h2]
  refine ⟨(EAP_fail_output cfg orc sig tier d _ cid h3 h4).2,
    EAP_no_cancel cfg orc sig tier d _ cid, ?_,
    EAP_no_market_close cfg orc sig tier d _ cid⟩
  have h := EAP_entry_orders cfg orc sig tier d
    (((L.setEntry sig.symbol orc.markPrice).setOrig sig.symbol
      (sizedQty cfg orc tier)).setState sig.symbol PositionState.OPENING) cid
  cases hEO : entry_orders (entry_and_protect cfg orc sig tier d
      (((L.setEntry sig.symbol orc.markPrice).setOrig sig.symbol
        (sizedQty cfg orc tier)).setState sig.symbol PositionState.OPENING) cid).actions with
  | nil => rw [hEO] at h; exact absurd h (by simp)
  | cons x xs =>
    rw [hEO] at h
    simp only [List.map_cons, List.cons.injEq, List.map_eq_nil_iff] at h
    have hx : x ∈ entry_orders (entry_and_protect cfg orc sig tier d
        (((L.setEntry sig.symbol orc.markPrice).setOrig sig.symbol
          (sizedQty cfg orc tier)).setState sig.symbol PositionState.OPENING) cid).actions := by
      rw [hEO]; exact List.mem_cons_self x xs
    obtain ⟨hxmem, hxtype⟩ := entry_orders_mem _ x hx
    exact ⟨x, hxmem, hxtype, h.1⟩

theorem C3_protective_failure_witness :
    _direction sigBTC.side = some Direction.LONG ∧
    ¬(L0.state sigBTC.symbol = some PositionState.OPENING ∨
      L0.state sigBTC.symbol = some PositionState.CLOSING) ∧
    orcTPfail.entryOK = true ∧
    (orcTPfail.slOK = false ∨ orcTPfail.tpOK = false) ∧
    (place_order cfgA orcTPfail sigBTC tierM L0 "BOT-1").result =
      Except.error (if orcTPfail.slOK = false then PlaceErr.slFailed else PlaceErr.tpFailed) ∧
    (∀ s, Action.cancelAllOpenOrders s ∉ (place_order cfgA orcTPfail sigBTC tierM L0 "BOT-1").actions) :=
  have h1 : _direction sigBTC.side = some Direction.LONG := by decide
  have h2 : ¬(L0.state sigBTC.symbol = some PositionState.OPENING ∨
      L0.state sigBTC.symbol = some PositionState.CLOSING) := by decide
  have h3 : orcTPfail.entryOK = true := by decide
  have h4 : orcTPfail.slOK = false ∨ orcTPfail.tpOK = false := Or.inr (by decide)
  ⟨h1, h2, h3, h4,
   (C3_protective_failure cfgA orcTPfail sigBTC tierM L0 "BOT-1" Direction.LONG h1 h2 h3 h4).1,
   (C3_protective_failure cfgA orcTPfail sigBTC tierM L0 "BOT-1" Direction.LONG h1 h2 h3 h4).2.1⟩

/-- C6 (counterexample): with wallet 17, positionFraction 1 %, leverage 1 and
mark price 100 the raw quantity is 0.0017; with lot step 0.001 the source
submits 0.002 — rounded up, not the claimed round-down 0.001. -/
theorem C6_cex :
    (entry_orders (place_order cfgA orcC6 sigBTC tierC6 L0 "BOT-1").actions).map
      (fun s => s.quantity) = [some ((1 : ℚ)/500)] ∧
    round_qty_down 3 ((17 : ℚ)/10000) = 1/1000 ∧
    ((1 : ℚ)/500) ≠ round_qty_down 3 ((17 : ℚ)/10000) ∧
    ((17 : ℚ)/10000) < (1 : ℚ)/500 := by
  refine ⟨?_, ?_, ?_, by norm_num⟩
  · rw [place_order_unblocked_run cfgA orcC6 sigBTC tierC6 L0 "BOT-1" Direction.LONG
      (by decide) (by decide)]
    rw [EAP_entry_orders]
    norm_num [sizedQty, round_qty, roundP, roundHE, cfgA, orcC6, tierC6]
  · norm_num [round_qty_down]
  · norm_num [round_qty_down]

/-- C6 (amended): the submitted entry quantity equals
(walletBalance·positionFraction·leverage)/markPrice rounded to the NEAREST
multiple of the venue's lot-size step (Python round, ties to even) — not
rounded down; the trace contains exactly one entry (MARKET/LIMIT) order. -/
theorem C6_entry_qty (cfg : ExchCfg) (orc : PlaceOracle) (sig : Signal)
    (tier : Tier) (L : Ledger) (cid : String) (d : Direction)
    (h1 : _direction sig.side = some d)
    (h2 : ¬(L.state sig.symbol = some PositionState.OPENING ∨
      L.state sig.symbol = some PositionState.CLOSING)) :
    (entry_orders (place_order cfg orc sig tier L cid).actions).map
      (fun s => s.quantity) =
      [some (round_qty cfg.lotPrec
        (orc.walletBalance * tier.pos_pct * tier.leverage / orc.markPrice))] := by
  rw [place_order_unblocked_run cfg orc sig tier L cid d h1 h2]
  exact EAP_entry_orders cfg orc sig tier d _ cid

theorem C6_entry_qty_witness :
    _direction sigBTC.side = some Direction.LONG ∧
    ¬(L0.state sigBTC.symbol = some PositionState.OPENING ∨
      L0.state sigBTC.symbol = some PositionState.CLOSING) ∧
    (entry_orders (place_order cfgA orcOK sigBTC tierM L0 "BOT-1").actions).map
      (fun s => s.quantity) =
      [some (round_qty cfgA.lotPrec
        (orcOK.walletBalance * tierM.pos_pct * tierM.leverage / orcOK.markPrice))] :=
  have h1 : _direction sigBTC.side = some Direction.LONG := by decide
  have h2 : ¬(L0.state sigBTC.symbol = some PositionState.OPENING ∨
      L0.state sigBTC.symbol = some PositionState.CLOSING) := by decide
  ⟨h1, h2, C6_entry_qty cfgA orcOK sigBTC tierM L0 "BOT-1" Direction.LONG h1 h2⟩

/-- C9: if place_order fails because a protective order could not be
submitted, the symbol stays OPENING, so every subsequent place_order call
for that symbol (with a recognised direction, as the caller guarantees)
returns the empty blocked result and submits no order at all — until a
closure sweep moves the state on. -/
theorem C9_protective_failure_blocks (cfg : ExchCfg) (orc : PlaceOracle) (sig : Signal)
    (tier : Tier) (L : Ledger) (cid : String) (d : Direction)
    (h1 : _direction sig.side = some d)
    (h2 : ¬(L.state sig.symbol = some PositionState.OPENING ∨
      L.state sig.symbol = some PositionState.CLOSING))
    (h3 : orc.entryOK = true)
    (h4 : orc.slOK = false ∨ orc.tpOK = false) :
    (place_order cfg orc sig tier L cid).ledger.state sig.symbol =
      some PositionState.OPENING ∧
    (∀ (cfg2 : ExchCfg) (orc2 : PlaceOracle) (sig2 : Signal) (tier2 : Tier)
      (cid2 : String) (d2 : Direction), sig2.symbol = sig.symbol →
      _direction sig2.side = some d2 →
      (place_order cfg2 orc2 sig2 tier2 (place_order cfg orc sig tier L cid).ledger
        cid2).result = Except.ok none ∧
      (∀ spec, Action.createOrder spec ∉
        (place_order cfg2 orc2 sig2 tier2 (place_order cfg orc sig tier L cid).ledger
          cid2).actions)) := by
  have hrun := place_order_unblocked_run cfg orc sig tier L cid d h1 h2
  have hled := (EAP_fail_output cfg orc sig tier d
    (((L.setEntry sig.symbol orc.markPrice).setOrig sig.symbol
      (sizedQty cfg orc tier)).setState sig.symbol PositionState.OPENING) cid h3 h4).1
  have hstate : (place_order cfg orc sig tier L cid).ledger.state sig.symbol =
      some PositionState.OPENING := by
    rw [hrun, hled]
    exact Ledger.setState_state_same _ _ _
  refine ⟨hstate, ?_⟩
  intro cfg2 orc2 sig2 tier2 cid2 d2 hsym hdir
  have hblocked : (place_order cfg orc sig tier L cid).ledger.state sig2.symbol =
      some PositionState.OPENING ∨
      (place_order cfg orc sig tier L cid).ledger.state sig2.symbol =
      some PositionState.CLOSING := Or.inl (by rw [hsym]; exact hstate)
  rw [place_order_blocked_run cfg2 orc2 sig2 tier2 _ cid2 d2 hdir hblocked]
  refine ⟨rfl, ?_⟩
  intro spec hmem
  simp [sizingActs] at hmem

theorem C9_protective_failure_blocks_witness :
    _direction sigBTC.side = some Direction.LONG ∧
    ¬(L0.state sigBTC.symbol = some PositionState.OPENING ∨
      L0.state sigBTC.symbol = some PositionState.CLOSING) ∧
    orcTPfail.entryOK = true ∧
    (orcTPfail.slOK = false ∨ orcTPfail.tpOK = false) ∧
    (place_order cfgA orcTPfail sigBTC tierM L0 "BOT-1").ledger.state sigBTC.symbol =
      some PositionState.OPENING ∧
    (place_order cfgA orcOK sigBTC tierM
      (place_order cfgA orcTPfail sigBTC tierM L0 "BOT-1").ledger "BOT-2").result =
      Except.ok none :=
  have h1 : _direction sigBTC.side = some Direction.LONG := by decide
  have h2 : ¬(L0.state sigBTC.symbol = some PositionState.OPENING ∨
      L0.state sigBTC.symbol = some PositionState.CLOSING) := by decide
  have h3 : orcTPfail.entryOK = true := by decide
  have h4 : orcTPfail.slOK = false ∨ orcTPfail.tpOK = false := Or.inr (by decide)
  ⟨h1, h2, h3, h4,
   (C9_protective_failure_blocks cfgA orcTPfail sigBTC tierM L0 "BOT-1"
     Direction.LONG h1 h2 h3 h4).1,
   ((C9_protective_failure_blocks cfgA orcTPfail sigBTC tierM L0 "BOT-1"
     Direction.LONG h1 h2 h3 h4).2 cfgA orcOK sigBTC tierM "BOT-2" Direction.LONG rfl h1).1⟩

/-! ### Sweep fixtures and close-block lemma -/

/-- Ledger with an ACTIVE BTCUSDT position: entry 100, original qty 1. -/
def LActive : Ledger :=
  { state := fun s => if s = "BTCUSDT" then some PositionState.ACTIVE else none,
    entryPrice := fun s => if s = "BTCUSDT" then some 100 else none,
    origQty := fun s => if s = "BTCUSDT" then some 1 else none }

/-- All sweep broker calls succeed. -/
def orcSweepOK : SweepOracle :=
  { cancelTP1OK := true, beOK := true, cancelOK := true, closeOK := true,
    exitMark := some 110 }

/-- Every sweep broker call fails. -/
def orcSweepFail : SweepOracle :=
  { cancelTP1OK := false, beOK := false, cancelOK := false, closeOK := false,
    exitMark := none }

/-- LONG position of 1 BTC, 7 hours old. -/
def posBTC7 : BrokerPos :=
  { symbol := "BTCUSDT", positionAmt := 1, ageHours := 7, entryPrice := 100 }

/-- LONG position whose remaining amount dropped to 0.45 of the original 1
(TP1 assumed filled), freshly updated (age 0). -/
def posTP1 : BrokerPos :=
  { symbol := "BTCUSDT", positionAmt := 9/20, ageHours := 0, entryPrice := 100 }

/-- Latest signals: BTCUSDT LONG with confidence 0.8. -/
def sigMapLong : String → Option (Direction × ℚ) :=
  fun s => if s = "BTCUSDT" then some (Direction.LONG, 4/5) else none

/-- Latest signals: BTCUSDT SHORT with confidence 0.9 (an adversarial flip
signal). -/
def sigMapShort : String → Option (Direction × ℚ) :=
  fun s => if s = "BTCUSDT" then some (Direction.SHORT, 9/10) else none

/-- The sweep state at the start of an invocation of the sweep over LActive. -/
def st0C2 : SweepState :=
  { ledger := LActive, oppSide := none, actions := [], events := [], outcomes := [] }

theorem close_block_spec (orc : SweepOracle) (p : BrokerPos) (reason : String)
    (st : SweepState) :
    (∃ pnl, Event.POSITION_CLOSED p.symbol reason (roundP 2 p.ageHours) pnl ∈
      (close_block orc p reason st).events) ∧
    (close_block orc p reason st).ledger.state p.symbol = some PositionState.CLOSED ∧
    (∃ spec, Action.createOrder spec ∈ (close_block orc p reason st).actions ∧
      spec.symbol = p.symbol ∧ spec.type = OrdType.MARKET ∧ spec.closePosition = true) ∧
    (∀ e, e ∈ (close_block orc p reason st).events → e ∈ st.events ∨
      e = Event.ERROR_CANCEL p.symbol ∨ e = Event.ERROR_CLOSE p.symbol ∨
      ∃ age pnl, e = Event.POSITION_CLOSED p.symbol reason age pnl) ∧
    (close_block orc p reason st).outcomes.length = st.outcomes.length + 1 ∧
    (∃ o, o ∈ (close_block orc p reason st).outcomes ∧ o.symbol = p.symbol ∧
      o.reason = reason) := by
  unfold close_block
  dsimp only
  cases hc : orc.cancelOK <;> cases hq : orc.closeOK <;>
    (simp only [Bool.false_eq_true, eq_self_iff_true, if_true, if_false]
     refine ⟨⟨_, List.mem_append_right _ (List.mem_singleton_self _)⟩,
       by simp [Ledger.setState],
       ⟨_, List.mem_append_left _ (List.mem_append_right _ (List.mem_singleton_self _)),
         rfl, rfl, rfl⟩, ?_, by simp,
       ⟨_, List.mem_append_right _ (List.mem_singleton_self _), rfl, rfl⟩⟩
     intro e he
     simp at he
     rcases he with he | rfl | rfl | rfl <;>
       first
         | exact Or.inl he
         | exact Or.inr (Or.inl rfl)
         | exact Or.inr (Or.inr (Or.inl rfl))
         | exact Or.inr (Or.inr (Or.inr ⟨_, _, rfl⟩)))

/-- C5: for a position at least ttl_hours old the sweep runs the closure
procedure with reason TIME_STOP no matter what the latest signals say
(sigMap is arbitrary): the POSITION_CLOSED event carries TIME_STOP, a
closing market order is issued, the ledger moves to CLOSED, and every
newly added POSITION_CLOSED event carries reason TIME_STOP (the spec's
own re-entrancy guard, state ≠ CLOSING, is assumed as in §4.5). -/
theorem C5_time_stop_priority (cfg : ExchCfg) (ttl flip minc : ℚ)
    (sigMap : String → Option (Direction × ℚ)) (orc : SweepOracle) (p : BrokerPos)
    (st : SweepState)
    (hamt : p.positionAmt ≠ 0)
    (hage : ttl ≤ p.ageHours)
    (hguard : st.ledger.state p.symbol ≠ some PositionState.CLOSING) :
    (∃ pnl, Event.POSITION_CLOSED p.symbol "TIME_STOP" (roundP 2 p.ageHours) pnl ∈
      (manageStep cfg ttl flip minc sigMap orc p st).events) ∧
    (manageStep cfg ttl flip minc sigMap orc p st).ledger.state p.symbol =
      some PositionState.CLOSED ∧
    (∃ spec, Action.createOrder spec ∈
      (manageStep cfg ttl flip minc sigMap orc p st).actions ∧
      spec.symbol = p.symbol ∧ spec.type = OrdType.MARKET ∧ spec.closePosition = true) ∧
    (∀ r age pnl, Event.POSITION_CLOSED p.symbol r age pnl ∈
      (manageStep cfg ttl flip minc sigMap orc p st).events →
      Event.POSITION_CLOSED p.symbol r age pnl ∈ st.events ∨ r = "TIME_STOP") := by
  have hdec : sweep_decide cfg ttl flip minc sigMap orc p st = (st, some "TIME_STOP") := by
    unfold sweep_decide
    dsimp only
    rw [if_pos hage]
  have hms : manageStep cfg ttl flip minc sigMap orc p st =
      close_block orc p "TIME_STOP" st := by
    unfold manageStep
    dsimp only
    rw [if_neg hamt, hdec]
    dsimp only
    rw [if_neg hguard]
  rw [hms]
  obtain ⟨h1, h2, h3, h4, _h5, _h6⟩ := close_block_spec orc p "TIME_STOP" st
  refine ⟨h1, h2, h3, ?_⟩
  intro r age pnl hmem
  rcases h4 _ hmem with he | he | he | ⟨age', pnl', he⟩
  · exact Or.inl he
  · exact absurd he (by simp)
  · exact absurd he (by simp)
  · simp only [Event.POSITION_CLOSED.injEq] at he
    exact Or.inr he.2.1

theorem C5_time_stop_priority_witness :
    posBTC7.positionAmt ≠ 0 ∧ (6 : ℚ) ≤ posBTC7.ageHours ∧
    st0C2.ledger.state posBTC7.symbol ≠ some PositionState.CLOSING ∧
    (manageStep cfgA 6 (6/10) (4/10) sigMapShort orcSweepOK posBTC7 st0C2).ledger.state
      posBTC7.symbol = some PositionState.CLOSED ∧
    (∃ pnl, Event.POSITION_CLOSED posBTC7.symbol "TIME_STOP" (roundP 2 posBTC7.ageHours)
      pnl ∈ (manageStep cfgA 6 (6/10) (4/10) sigMapShort orcSweepOK posBTC7 st0C2).events) :=
  have h1 : posBTC7.positionAmt ≠ 0 := by norm_num [posBTC7]
  have h2 : (6 : ℚ) ≤ posBTC7.ageHours := by norm_num [posBTC7]
  have h3 : st0C2.ledger.state posBTC7.symbol ≠ some PositionState.CLOSING := by decide
  ⟨h1, h2, h3,
   (C5_time_stop_priority cfgA 6 (6/10) (4/10) sigMapShort orcSweepOK posBTC7 st0C2
     h1 h2 h3).2.1,
   (C5_time_stop_priority cfgA 6 (6/10) (4/10) sigMapShort orcSweepOK posBTC7 st0C2
     h1 h2 h3).1⟩

/-- C10: once a closure rule fires for a position (the rule evaluation
returned a reason) and the ledger is not already CLOSING, the closure block
runs to completion for every broker-oracle outcome — cancel failure, close
failure, mark-price failure included: the POSITION_CLOSED event with that
reason is emitted, exactly one outcome row is recorded, and the ledger
state becomes CLOSED. -/
theorem C10_close_despite_errors (cfg : ExchCfg) (ttl flip minc : ℚ)
    (sigMap : String → Option (Direction × ℚ)) (orc : SweepOracle) (p : BrokerPos)
    (st st1 : SweepState) (r : String)
    (hamt : p.positionAmt ≠ 0)
    (hdec : sweep_decide cfg ttl flip minc sigMap orc p st = (st1, some r))
    (hguard : st1.ledger.state p.symbol ≠ some PositionState.CLOSING) :
    (∃ age pnl, Event.POSITION_CLOSED p.symbol r age pnl ∈
      (manageStep cfg ttl flip minc sigMap orc p st).events) ∧
    (manageStep cfg ttl flip minc sigMap orc p st).ledger.state p.symbol =
      some PositionState.CLOSED ∧
    (manageStep cfg ttl flip minc sigMap orc p st).outcomes.length =
      st1.outcomes.length + 1 ∧
    (∃ o, o ∈ (manageStep cfg ttl flip minc sigMap orc p st).outcomes ∧
      o.symbol = p.symbol ∧ o.reason = r) := by
  have hms : manageStep cfg ttl flip minc sigMap orc p st = close_block orc p r st1 := by
    unfold manageStep
    dsimp only
    rw [if_neg hamt, hdec]
    dsimp only
    rw [if_neg hguard]
  rw [hms]
  obtain ⟨h1, h2, _h3, _h4, h5, h6⟩ := close_block_spec orc p r st1
  obtain ⟨pnl, hp⟩ := h1
  exact ⟨⟨roundP 2 p.ageHours, pnl, hp⟩, h2, h5, h6⟩

theorem C10_close_despite_errors_witness :
    posBTC7.positionAmt ≠ 0 ∧
    sweep_decide cfgA 6 (6/10) (4/10) sigMapShort orcSweepFail posBTC7 st0C2 =
      (st0C2, some "TIME_STOP") ∧
    st0C2.ledger.state posBTC7.symbol ≠ some PositionState.CLOSING ∧
    (manageStep cfgA 6 (6/10) (4/10) sigMapShort orcSweepFail posBTC7 st0C2).ledger.state
      posBTC7.symbol = some PositionState.CLOSED ∧
    (manageStep cfgA 6 (6/10) (4/10) sigMapShort orcSweepFail posBTC7 st0C2).outcomes.length =
      st0C2.outcomes.length + 1 :=
  have h1 : posBTC7.positionAmt ≠ 0 := by norm_num [posBTC7]
  have h2 : sweep_decide cfgA 6 (6/10) (4/10) sigMapShort orcSweepFail posBTC7 st0C2 =
      (st0C2, some "TIME_STOP") := by
    unfold sweep_decide
    dsimp only
    rw [if_pos (show (6 : ℚ) ≤ posBTC7.ageHours from by norm_num [posBTC7])]
  have h3 : st0C2.ledger.state posBTC7.symbol ≠ some PositionState.CLOSING := by decide
  ⟨h1, h2, h3,
   (C10_close_despite_errors cfgA 6 (6/10) (4/10) sigMapShort orcSweepFail posBTC7
     st0C2 st0C2 "TIME_STOP" h1 h2 h3).2.1,
   (C10_close_despite_errors cfgA 6 (6/10) (4/10) sigMapShort orcSweepFail posBTC7
     st0C2 st0C2 "TIME_STOP" h1 h2 h3).2.2.1⟩

/-! ### C2: evaluation of the TP1 / break-even promotion at its intended input -/

/-- The sweep state after the TP1 block ran at the C2 input: orders
cancelled, TP1_HIT and ERROR_SL logged, no order created, ledger
unchanged. -/
def st1C2 : SweepState :=
  { ledger := LActive, oppSide := none,
    actions := [Action.cancelAllOpenOrders "BTCUSDT", Action.getExchangeInfo "BTCUSDT"],
    events := [Event.TP1_HIT "BTCUSDT", Event.ERROR_SL "BTCUSDT"], outcomes := [] }

theorem tp1_block_C2 : tp1_block cfgL orcSweepOK posTP1 st0C2 = st1C2 := by
  unfold tp1_block
  dsimp only
  rw [if_pos (show cfgL.ladderTP = true ∧
    st0C2.ledger.state posTP1.symbol = some PositionState.ACTIVE from ⟨rfl, rfl⟩)]
  rw [show st0C2.ledger.origQty posTP1.symbol = some 1 from rfl]
  dsimp only
  rw [if_pos (show (1 : ℚ) ≠ 0 ∧ |posTP1.positionAmt| ≤ 1 * (1 - cfgL.tp1Frac + 1/20) from
    by constructor
       · norm_num
       · show |(9/20 : ℚ)| ≤ 1 * (1 - 1/2 + 1/20)
         rw [abs_of_pos (by norm_num : (0:ℚ) < 9/20)]
         norm_num)]
  rw [show st0C2.ledger.entryPrice posTP1.symbol = some 100 from rfl]
  dsimp only [Option.getD]
  rw [if_pos (show (0 : ℚ) < 100 from by norm_num)]
  rw [show st0C2.oppSide = (none : Option Side) from rfl]
  dsimp only
  rw [if_pos (show orcSweepOK.cancelTP1OK = true from rfl)]
  rfl

theorem sweep_decide_C2 :
    sweep_decide cfgL 6 (6/10) (4/10) sigMapLong orcSweepOK posTP1 st0C2 = (st1C2, none) := by
  unfold sweep_decide
  dsimp only
  rw [if_neg (show ¬((6 : ℚ) ≤ posTP1.ageHours) from by norm_num [posTP1])]
  rw [show sigMapLong posTP1.symbol = some (Direction.LONG, 4/5) from rfl]
  dsimp only
  rw [if_neg (show ¬(Direction.LONG ≠
      (if 0 < posTP1.positionAmt then Direction.LONG else Direction.SHORT) ∧
      (6/10 : ℚ) ≤ 4/5) from
    fun h => h.1 (by
      rw [if_pos (show (0 : ℚ) < posTP1.positionAmt from by norm_num [posTP1])]))]
  rw [tp1_block_C2]
  have hval : decayed_conf (4/5) posTP1.ageHours 6 = ((4/5 : ℚ) : ℝ) := by
    rw [show posTP1.ageHours = (0 : ℚ) from rfl, decayed_conf_zero]
    norm_cast
    norm_num [roundP, roundHE]
  rw [if_neg (show ¬(decayed_conf (4/5) posTP1.ageHours 6 < ((4/10 : ℚ) : ℝ)) from by
    rw [hval]
    exact_mod_cast (by norm_num : ¬((4/5 : ℚ) < 4/10)))]

/-- C2: at exactly the input the spec describes — ladder mode on,
tp1Fraction 0.5, BTCUSDT ACTIVE with originalQty 1 and entry 100, remaining
quantity 0.45 (≤ 0.55), a same-direction signal present, every broker call
succeeding — the sweep logs TP1_HIT and cancels the open orders, but then
hits the unbound local opp_side (only assigned later, in the close block):
the UnboundLocalError is caught, ERROR_SL is logged, NO break-even stop
order is submitted (no order at all is created) and the ledger stays
ACTIVE instead of moving to REDUCING. -/
theorem C2_breakeven_unbound_local :
    (manage_open_positions cfgL 6 (6/10) (4/10) sigMapLong [(posTP1, orcSweepOK)]
      LActive).ledger.state "BTCUSDT" = some PositionState.ACTIVE ∧
    (∀ spec, Action.createOrder spec ∉
      (manage_open_positions cfgL 6 (6/10) (4/10) sigMapLong [(posTP1, orcSweepOK)]
        LActive).actions) ∧
    Event.TP1_HIT "BTCUSDT" ∈
      (manage_open_positions cfgL 6 (6/10) (4/10) sigMapLong [(posTP1, orcSweepOK)]
        LActive).events ∧
    Event.ERROR_SL "BTCUSDT" ∈
      (manage_open_positions cfgL 6 (6/10) (4/10) sigMapLong [(posTP1, orcSweepOK)]
        LActive).events ∧
    (∀ price, Event.BREAKEVEN_SL_SET "BTCUSDT" price ∉
      (manage_open_positions cfgL 6 (6/10) (4/10) sigMapLong [(posTP1, orcSweepOK)]
        LActive).events) := by
  have hrun : manage_open_positions cfgL 6 (6/10) (4/10) sigMapLong [(posTP1, orcSweepOK)]
      LActive = st1C2 := by
    unfold manage_open_positions
    show manageStep cfgL 6 (6/10) (4/10) sigMapLong orcSweepOK posTP1 st0C2 = st1C2
    unfold manageStep
    dsimp only
    rw [if_neg (show ¬(posTP1.positionAmt = 0) from by norm_num [posTP1])]
    rw [sweep_decide_C2]
  rw [hrun]
  refine ⟨rfl, ?_, by simp [st1C2], by simp [st1C2], ?_⟩
  · intro spec hmem
    simp [st1C2] at hmem
  · intro price hmem
    simp [st1C2] at hmem

end Bot
